import Mathlib

/-!
Shallow embedding of the DOC document-generation pipeline
(src/document/domain/document_generator.py and
src/document/domain/resource.py).

Python dicts are modelled as association lists, Python exceptions as an
`Except PyError` result, and the filesystem / network environment (glob
results, directory listings, download outcomes, subprocess exit codes) as
explicit parameters carried by the resource or passed to the function.
-/

namespace DOC

/-- Python exceptions that the embedded code can raise. -/
inductive PyError
  | ViolationError -- icontract precondition/postcondition violation
  | IndexError
  | KeyError
  | TypeError -- a call that does not match the callee's signature
  | AttributeError -- attribute lookup of a method that does not exist
  | DownloadError -- exception raised out of url_utils.download_file
  | ExtractError -- exception raised out of file_utils.unzip
deriving DecidableEq, Repr

/-- os.path.join on POSIX, for the two-argument uses in the source: the
second part replaces the first when absolute, otherwise the parts are
joined with a single separator. -/
def pathJoin (a b : String) : String :=
  if b.data.head? = some '/' then b
  else if a.data.isEmpty then b
  else if a.data.getLast? = some '/' then a ++ b
  else a ++ "/" ++ b

/-- url.rpartition(os.path.sep)[2] (resource.py 1437-1440): the part of the
string after the last "/", or the whole string when there is no "/". -/
def rpartition_tail (s : String) : String :=
  ⟨(s.data.reverse.takeWhile (fun c => c ≠ '/')).reverse⟩

/-- Contiguous-substring test on character lists (Python's `in` on strings). -/
def hasSubstr (needle : List Char) : List Char → Bool
  | [] => needle.isEmpty
  | c :: cs => needle.isPrefixOf (c :: cs) || hasSubstr needle cs

/-- str.lower on one character: ASCII uppercase letters are shifted down by
32 (the paths and resource codes the source lowercases are ASCII). -/
def lowerChar (c : Char) : Char :=
  if 65 ≤ c.toNat ∧ c.toNat ≤ 90 then Char.ofNat (c.toNat + 32) else c

/-- str.lower on a string. -/
def lowerStr (s : String) : String :=
  ⟨s.data.map lowerChar⟩

/-- Python `needle.lower() in str(hay).lower()` (resource.py 237-239, 246-248). -/
def substrCI (needle hay : String) : Bool :=
  hasSubstr (lowerStr needle).data (lowerStr hay).data

/-- Modelled from the spec: config.py is not under src/.  The storage kinds
are git | zip | flat; _is_git's docstring (resource.py 1487) reads "Return
true if _resource_source is equal to 'git'" and _is_zip's likewise for 'zip',
so config.GIT and config.ZIP are those literals. -/
def GIT : String := "git"

/-- Modelled from the spec: see GIT. -/
def ZIP : String := "zip"

/-- The Resource subclass selected by resource_factory (resource.py 1332-1349):
USFMResource, TNResource, TQResource, TWResource or TAResource. -/
inductive ResourceKind
  | usfm
  | tn
  | tq
  | tw
  | ta
deriving DecidableEq, Repr

/-- model.ResourceRequest: one entry of a DocumentRequest, identified by
lang_code, resource_type and resource_code. -/
structure ResourceRequest where
  lang_code : String
  resource_type : String
  resource_code : String
deriving DecidableEq, Repr

/-- Modelled from the spec: resource_lookup.py is not under src/.  Catalog
Lookup resolves a request to `LocationDescriptor | NotFound`; the
ResourceLookupDto read in find_location carries an optional url and a source
kind, and an absent url is the NotFound outcome.  The per-resource
environment also fixes the HTML content the resource generates and whether
provisioning it completes without raising (the network effects). -/
structure RequestEnv where
  lookup_url : Option String
  lookup_source : String
  content : String
  get_files_ok : Bool
deriving DecidableEq, Repr

/-- Runtime state of one Resource (resource.py 42-89), together with its
request-environment fields (what the catalog lookup and the network would
answer for it). -/
structure Resource where
  kind : ResourceKind
  lang_code : String
  resource_type : String
  resource_code : String
  resource_dir : String
  resource_filename : String
  book_title : String
  book_number : String
  lookup_url : Option String
  lookup_source : String
  content : String
  get_files_ok : Bool
  resource_url : Option String := none
  resource_source : String := ""
deriving DecidableEq, Repr

/-- Resource.is_found (resource.py 132-134): true when the resource's URL
location was found. -/
def Resource.is_found (r : Resource) : Bool :=
  r.resource_url.isSome

/-- Both find_location overrides (resource.py 197-207 and 507-517) store the
lookup dto's url and source on the resource. -/
def locate (r : Resource) : Resource :=
  { r with resource_url := r.lookup_url, resource_source := r.lookup_source }

/-- Resource.find_location.  USFMResource.find_location (resource.py 196)
carries the icontract postcondition `self._resource_url is not None`, which
raises a ViolationError when the lookup yielded no url.
TResource.find_location (resource.py 507-517) has no such contract. -/
def find_location (r : Resource) : Except PyError Resource :=
  match r.kind with
  | .usfm =>
    if (locate r).resource_url.isSome then .ok (locate r) else .error .ViolationError
  | _ => .ok (locate r)

/-- The effect of Resource.get_files (resource.py 107-112) on the modelled
state: ResourceProvisioner redirects resource_dir to the clone target for
git-kind sources (resource.py 1461-1462) and leaves it unchanged otherwise.
Whether the call raises at all is the environment bit get_files_ok. -/
def get_files_effect (r : Resource) : Resource :=
  match r.resource_url with
  | some url =>
    if r.resource_source = GIT then
      { r with resource_dir := pathJoin r.resource_dir (rpartition_tail url) }
    else r
  | none => r

/-- The observable pipeline steps of DocumentGenerator.run.  The content
initialization loop contributes no step: its first statement,
resource.initialize_assets(), names a method no Resource class defines, so
it raises before doing any work (see initialize_resource_content). -/
inductive Action
  | findLocation (r : Resource)
  | getFiles (r : Resource)
  | assembleContent
  | convertHtml2Pdf
deriving DecidableEq, Repr

/-- DocumentGenerator._fetch_resources (document_generator.py 173-190):
for each resource, find its location; found resources are appended to
found_resources and fetched (get_files), unfound ones are appended to
unfound_resources.  Returns (found, unfound, actions performed).  A raised
exception (contract violation during find_location, or a network error
during get_files) propagates and aborts the run. -/
def fetch_resources : List Resource → Except PyError (List Resource × List Resource × List Action)
  | [] => .ok ([], [], [])
  | r :: rs =>
    match find_location r with
    | .error e => .error e
    | .ok r' =>
      if r'.is_found then
        if r'.get_files_ok then
          match fetch_resources rs with
          | .error e => .error e
          | .ok (found, unfound, acts) =>
            .ok (get_files_effect r' :: found, unfound,
                 .findLocation r' :: .getFiles r' :: acts)
        else .error .DownloadError
      else
        match fetch_resources rs with
        | .error e => .error e
        | .ok (found, unfound, acts) =>
          .ok (found, r' :: unfound, .findLocation r' :: acts)

/-- DocumentGenerator._initialize_resource_content (document_generator.py
192-205): for each found resource, the loop body first calls
resource.initialize_assets() — but no Resource class defines an
initialize_assets method (resource.py defines only initialize_from_assets,
lines 115, 209, 519), so the attribute lookup raises an AttributeError at
the first found resource before any work is done.  With no found
resources the loop body never runs and the phase completes. -/
def initialize_resource_content (found : List Resource) : Except PyError (List Action) :=
  match found with
  | [] => .ok []
  | _ :: _ => .error .AttributeError

/-- DocumentGenerator._generate_pdf (document_generator.py 207-225): when the
keyed PDF file is absent, assemble the content and convert HTML to PDF;
when it is present, do nothing. -/
def generate_pdf_actions (pdfExists : Bool) : List Action :=
  if pdfExists then [] else [Action.assembleContent, Action.convertHtml2Pdf]

/-- DocumentGenerator.run (document_generator.py 159-171): fetch resources,
initialize their content, generate the PDF.  `pdfExists` is the
os.path.isfile test on the keyed output artifact.  An exception raised in
any phase (a contract violation or download failure while fetching, or
the AttributeError that _initialize_resource_content raises at the first
found resource) propagates and aborts the run. -/
def run (rs : List Resource) (pdfExists : Bool) : Except PyError (List Action) :=
  match fetch_resources rs with
  | .error e => .error e
  | .ok (found, _, acts) =>
    match initialize_resource_content found with
    | .error e => .error e
    | .ok acts2 => .ok (acts ++ acts2 ++ generate_pdf_actions pdfExists)

/-- assemble_content_by_book (document_generator.py 393-403): concatenate the
found resources' content, each prefixed by two newlines. -/
def assemble_content_by_book (found : List Resource) : String :=
  found.foldl (fun content r => content ++ "\n\n" ++ r.content) ""

/-- The document content produced by a completed run under the BOOK assembly
strategy: assemble_content is reached only after
_initialize_resource_content, which aborts at the first found resource, so
content is assembled only when the fetch phase found nothing. -/
def pipeline_content (rs : List Resource) : Except PyError String :=
  match fetch_resources rs with
  | .error e => .error e
  | .ok (found, _, _) =>
    match initialize_resource_content found with
    | .error e => .error e
    | .ok _ => .ok (assemble_content_by_book found)

/-- DocumentGenerator._initialize_document_request_key (document_generator.py
138-157): per request append lang_code-resource_type-resource_code and "_",
then drop the trailing separator. -/
def document_request_key (reqs : List ResourceRequest) : String :=
  let joined :=
    reqs.foldl
      (fun acc q =>
        acc ++ q.lang_code ++ "-" ++ q.resource_type ++ "-" ++ q.resource_code ++ "_")
      ""
  ⟨joined.data.dropLast⟩

/-- The output artifact path checked and written by _generate_pdf
(document_generator.py 212-213). -/
def pdf_file_path (output_dir : String) (reqs : List ResourceRequest) : String :=
  pathJoin output_dir (document_request_key reqs ++ ".pdf")

/-- The static book lookup tables (bible_books.BOOK_NAMES and
bible_books.BOOK_NUMBERS are not under src/; the tables are parameters
here and dict subscripting raises KeyError on an absent key). -/
structure BookTables where
  book_names : List (String × String)
  book_numbers : List (String × String)

/-- The resource_type → subclass dispatch table of resource_factory
(resource.py 1332-1349). -/
def resource_kind_table : List (String × ResourceKind) :=
  [("usfm", .usfm), ("ulb", .usfm), ("ulb-wa", .usfm), ("udb", .usfm),
   ("udb-wa", .usfm), ("nav", .usfm), ("reg", .usfm),
   ("tn", .tn), ("tn-wa", .tn), ("tq", .tq), ("tq-wa", .tq),
   ("tw", .tw), ("tw-wa", .tw), ("ta", .ta), ("ta-wa", .ta)]

/-- resource_factory (resource.py 1322-1352) composed with Resource.__init__
(resource.py 42-89): select the subclass by resource_type (dict subscript:
KeyError when absent), then construct the resource, which derives
resource_dir and resource_filename and subscripts BOOK_NAMES and
BOOK_NUMBERS with the resource_code — a KeyError when the code is absent. -/
def resource_factory (tables : BookTables) (working_dir _output_dir : String)
    (req : ResourceRequest) (env : RequestEnv) : Except PyError Resource :=
  match resource_kind_table.lookup req.resource_type with
  | none => .error .KeyError
  | some kind =>
    match tables.book_names.lookup req.resource_code with
    | none => .error .KeyError
    | some title =>
      match tables.book_numbers.lookup req.resource_code with
      | none => .error .KeyError
      | some number =>
        .ok { kind := kind
              lang_code := req.lang_code
              resource_type := req.resource_type
              resource_code := req.resource_code
              resource_dir := pathJoin working_dir (req.lang_code ++ "_" ++ req.resource_type)
              resource_filename :=
                req.lang_code ++ "_" ++ req.resource_type ++ "_" ++ req.resource_code
              book_title := title
              book_number := number
              lookup_url := env.lookup_url
              lookup_source := env.lookup_source
              content := env.content
              get_files_ok := env.get_files_ok }

/-- DocumentGenerator._initialize_resources (document_generator.py 124-136):
for each resource request the loop calls
resource_factory(self.working_dir, self.output_dir, resource_request) —
three arguments, although resource_factory declares four required
parameters (resource.py 1322-1327; assembly_strategy_kind has no default)
— so the call itself raises a TypeError at the first request, before
resource_factory's body or any book-table subscript runs.  With no
requests the loop body never runs and the resource list is empty. -/
def initialize_resources : List ResourceRequest → Except PyError (List Resource)
  | [] => .ok []
  | _ :: _ => .error .TypeError

/-- DocumentGenerator construction followed by run, as app.py's document
endpoint performs them: _initialize_resources runs inside
DocumentGenerator.__init__, so its error propagates out of construction
and run is reached only on a successfully constructed generator. -/
def document_generator_run (reqs : List ResourceRequest) (pdfExists : Bool) :
    Except PyError (List Action) :=
  match initialize_resources reqs with
  | .error err => .error err
  | .ok rs => run rs pdfExists

/-- One verse span extracted for a chapter by the verse loop of
USFMResource._initialize_verses_html (resource.py 330-385): the verse number
parsed from the span id and the sliced, truncated verse fragment. -/
structure VerseSpan where
  verse_num : Nat
  content : String
deriving DecidableEq, Repr

/-- One h2.c-num chapter break found by the BeautifulSoup query in
USFMResource._initialize_verses_html (resource.py 312), with the chapter
number from its heading text and the verse spans bs4 yields for the chapter
slice (the bs4 slicing mechanics are abstracted as data on the element). -/
structure ChapterBreak where
  chapter_num : Nat
  verses : List VerseSpan
deriving DecidableEq, Repr

/-- The USFM HTML read into self._content, as seen by
USFMResource._initialize_verses_html: the raw HTML string and the list of
h2.c-num chapter-break elements the parser finds in it. -/
structure ParsedUsfmHtml where
  html : String
  chapter_breaks : List ChapterBreak
deriving DecidableEq, Repr

/-- USFMResource._initialize_verses_html (resource.py 301-388).  The
icontract precondition requires self._content be truthy (non-empty).
`chapter_breaks[0]` (resource.py 313) raises an IndexError when find_all
returned no chapter breaks; otherwise each chapter contributes its verse
map, keyed by chapter number in iteration order. -/
def initialize_verses_html (doc : ParsedUsfmHtml) :
    Except PyError (List (Nat × List (Nat × String))) :=
  if doc.html = "" then .error .ViolationError
  else
    match doc.chapter_breaks with
    | [] => .error .IndexError
    | _ =>
      .ok (doc.chapter_breaks.map fun cb =>
        (cb.chapter_num, cb.verses.map fun v => (v.verse_num, v.content)))

/-- USFMResource.initialize_from_assets (resource.py 209-257), given the two
glob results (the *.usfm files and the *.txt files under resource_dir):
when the usfm glob is non-empty, keep the usfm files whose path contains
the resource code case-insensitively; otherwise, when the txt glob is
non-empty, filter the txt files the same way; otherwise _content_files
stays empty. -/
def usfm_initialize_from_assets (resource_code : String)
    (usfm_content_files txt_content_files : List String) : List String :=
  if usfm_content_files.isEmpty then
    if txt_content_files.isEmpty then []
    else txt_content_files.filter (fun f => substrCI resource_code f)
  else usfm_content_files.filter (fun f => substrCI resource_code f)

/-- The network/filesystem outcomes _acquire_resource can encounter.
subprocess.call run with shell=true reports a failed clone through its
return value, the exit status; url_utils.download_file and file_utils.unzip
signal failure by raising. -/
structure ProvisionEnv where
  clone_exit_code : Nat
  download_ok : Bool
  unzip_ok : Bool
deriving DecidableEq, Repr

/-- ResourceProvisioner._acquire_resource (resource.py 1407-1483).  The
icontract precondition requires truthy resource_type, resource_dir and
resource_url.  For a git source the clone command is run via
subprocess.call, whose returned exit status is never inspected, and
resource_dir is redirected to the clone target path; for other sources the
url is downloaded to the target path (a raised download error propagates),
and a zip source is then unzipped (a raised extraction error propagates). -/
def acquire_resource (r : Resource) (env : ProvisionEnv) : Except PyError Resource :=
  if r.resource_type = "" ∨ r.resource_dir = "" then .error .ViolationError
  else
    match r.resource_url with
    | none => .error .ViolationError
    | some url =>
      let resource_filepath := pathJoin r.resource_dir (rpartition_tail url)
      if r.resource_source = GIT then
        .ok { r with resource_dir := resource_filepath }
      else if env.download_ok then
        if r.resource_source = ZIP then
          if env.unzip_ok then .ok r else .error .ExtractError
        else .ok r
      else .error .DownloadError

/-- Python `ord`-based comparison of strings as character lists: the
lexicographic `<` that `sorted` uses on strings. -/
def charListLt : List Char → List Char → Bool
  | [], [] => false
  | [], _ :: _ => true
  | _ :: _, [] => false
  | a :: as, b :: bs =>
    if a.toNat < b.toNat then true
    else if b.toNat < a.toNat then false
    else charListLt as bs

/-- The non-strict order induced by charListLt. -/
def pyStrLe (s t : String) : Prop :=
  charListLt t.data s.data = false

instance : DecidableRel pyStrLe := fun s t =>
  inferInstanceAs (Decidable (charListLt t.data s.data = false))

/-- Python's built-in sorted on a list of strings.  sorted is a stable sort
with respect to a total preorder, so it coincides with insertion sort. -/
def pysorted (l : List String) : List String :=
  l.insertionSort pyStrLe

/-- An ASCII decimal digit, the characters matched by the source's
`[0-9]` globs and `^\d+$` regular expression on filesystem names. -/
def isAsciiDigit (c : Char) : Bool :=
  48 ≤ c.toNat && c.toNat ≤ 57

/-- The numeric value of a decimal digit string, as Python's int() parses the
chapter and verse names (resource.py 606, 620). -/
def natOfDigits : List Char → Nat
  | [] => 0
  | c :: cs => (c.toNat - 48) * 10 ^ cs.length + natOfDigits cs

/-- Python str.lstrip("0") (resource.py 739, 1200, 1225). -/
def stripZeros (s : String) : String :=
  ⟨s.data.dropWhile (· == '0')⟩

/-- The per-name step of the chapter loop of TNResource._get_tn_markdown
(resource.py 736-740): strip leading zeros, and when the stripped name
matches `^\d+$` the directory is processed as that chapter number,
otherwise it is skipped. -/
def chapter_entry (name : String) : Option Nat :=
  let c := stripZeros name
  if ¬c.data.isEmpty ∧ c.data.all isAsciiDigit then some (natOfDigits c.data)
  else none

/-- The chapter-processing order of TNResource._get_tn_markdown (resource.py
736-749): iterate over sorted(os.listdir(book_dir)) — a lexicographic string
sort — and process each numeric entry via chapter_entry.  The input is the
listing of the chapter directory names (the os.path.isdir test restricts
the listing to directories).  Returns the chapter numbers in processing
order; TResource._initialize_verses_html (resource.py 595-606) orders its
sorted(glob(...)) chapter directories the same way, and the per-verse
chunk files use the same sorted() on their globbed names (resource.py 617,
749). -/
def tn_processed_chapters (listing : List String) : List Nat :=
  (pysorted listing).filterMap chapter_entry

/-- tw_refs_by_verse, the books → chapters → verses → refs nested dict
(rows modelled as strings), as an association list. -/
abbrev TwDict := List (String × List (String × List (String × List String)))

/-- get_tw_refs (resource.py 1355-1366).  The first guard returns [] only
when the dict is truthy (non-empty) and the book is absent; the following
subscript tw_refs_by_verse[book] raises a KeyError when the book is absent
and the guard did not fire (the empty-dict case).  The chapter and verse
membership tests return [] when absent, else the stored list is returned. -/
def get_tw_refs (d : TwDict) (book chapter verse : String) :
    Except PyError (List String) :=
  if ¬d.isEmpty ∧ (d.lookup book).isNone then .ok []
  else
    match d.lookup book with
    | none => .error .KeyError
    | some chapters =>
      match chapters.lookup chapter with
      | none => .ok []
      | some verses =>
        match verses.lookup verse with
        | none => .ok []
        | some refs => .ok refs

/-- A translation-notes resource whose catalog lookup yields no url. -/
def tnUnfound : Resource :=
  { kind := .tn
    lang_code := "en"
    resource_type := "tn"
    resource_code := "gen"
    resource_dir := "working/en_tn"
    resource_filename := "en_tn_gen"
    book_title := "Genesis"
    book_number := "01"
    lookup_url := none
    lookup_source := ""
    content := ""
    get_files_ok := true }

/-- A translation-notes resource found at a zip url. -/
def tnFound : Resource :=
  { kind := .tn
    lang_code := "en"
    resource_type := "tn"
    resource_code := "gen"
    resource_dir := "working/en_tn"
    resource_filename := "en_tn_gen"
    book_title := "Genesis"
    book_number := "01"
    lookup_url := some "https://cdn.door43.org/en/tn/gen.zip"
    lookup_source := "zip"
    content := "<h1>Translation Notes for Genesis</h1>"
    get_files_ok := true }

/-- A USFM scripture resource whose catalog lookup yields no url. -/
def usfmUnfound : Resource :=
  { kind := .usfm
    lang_code := "en"
    resource_type := "ulb"
    resource_code := "gen"
    resource_dir := "working/en_ulb"
    resource_filename := "en_ulb_gen"
    book_title := "Genesis"
    book_number := "01"
    lookup_url := none
    lookup_source := ""
    content := ""
    get_files_ok := true }

/-- Parsed USFM HTML that contains markup but no h2.c-num chapter break. -/
def usfmNoChapters : ParsedUsfmHtml :=
  { html := "<p>no chapter markers here</p>", chapter_breaks := [] }

/-- A second chapterless parsed document, for evaluating the corrected
statement at a concrete input. -/
def usfmNoChapters2 : ParsedUsfmHtml :=
  { html := "<h1>Genesis</h1>", chapter_breaks := [] }

/-- A located git-kind USFM resource, ready for provisioning. -/
def gitResource : Resource :=
  { kind := .usfm
    lang_code := "en"
    resource_type := "ulb"
    resource_code := "gen"
    resource_dir := "working/en_ulb"
    resource_filename := "en_ulb_gen"
    book_title := "Genesis"
    book_number := "01"
    lookup_url := some "https://git.door43.org/wa/en_ulb"
    lookup_source := GIT
    content := ""
    get_files_ok := true
    resource_url := some "https://git.door43.org/wa/en_ulb"
    resource_source := GIT }

/-- A located zip-kind translation-notes resource, ready for provisioning. -/
def zipResource : Resource :=
  { kind := .tn
    lang_code := "en"
    resource_type := "tn"
    resource_code := "gen"
    resource_dir := "working/en_tn"
    resource_filename := "en_tn_gen"
    book_title := "Genesis"
    book_number := "01"
    lookup_url := some "https://cdn.door43.org/en/tn/gen.zip"
    lookup_source := ZIP
    content := ""
    get_files_ok := true
    resource_url := some "https://cdn.door43.org/en/tn/gen.zip"
    resource_source := ZIP }

/-- An environment in which the git clone process exits with status 1 and
nothing else fails. -/
def cloneFailedEnv : ProvisionEnv :=
  { clone_exit_code := 1, download_ok := true, unzip_ok := true }

/-- An environment in which every external operation succeeds. -/
def cleanEnv : ProvisionEnv :=
  { clone_exit_code := 0, download_ok := true, unzip_ok := true }

/-- An environment in which the download raises. -/
def noDownloadEnv : ProvisionEnv :=
  { clone_exit_code := 0, download_ok := false, unzip_ok := true }

/-- A small static book table holding only Genesis. -/
def bookTablesEx : BookTables :=
  { book_names := [("gen", "Genesis")], book_numbers := [("gen", "01")] }

/-- A resource request whose resource_code is not in the book table. -/
def reqUnknownCode : ResourceRequest :=
  { lang_code := "en", resource_type := "tn", resource_code := "zzz" }

/-- A resource request whose resource_code is in the book table. -/
def reqKnownCode : ResourceRequest :=
  { lang_code := "en", resource_type := "tn", resource_code := "gen" }

/-- An arbitrary request environment for construction-time fixtures. -/
def envEx : RequestEnv :=
  { lookup_url := some "https://cdn.door43.org/en/tn/zzz.zip"
    lookup_source := "zip"
    content := ""
    get_files_ok := true }

/-! Helper lemmas about the fetch phase. -/

theorem find_location_ok {r r' : Resource} (h : find_location r = .ok r') :
    r' = locate r := by
  unfold find_location at h
  split at h
  · split at h
    · exact (Except.ok.inj h).symm
    · exact absurd h (by simp)
  · exact (Except.ok.inj h).symm

theorem find_location_t_kind {r : Resource} (h : r.kind ≠ ResourceKind.usfm) :
    find_location r = .ok (locate r) := by
  unfold find_location
  cases hk : r.kind <;> simp_all

theorem find_location_of_found {r : Resource} (h : r.lookup_url.isSome = true) :
    find_location r = .ok (locate r) := by
  have hl : (locate r).resource_url.isSome = true := by simpa [locate]
  unfold find_location
  cases hk : r.kind <;> simp_all

theorem get_files_effect_url (r : Resource) :
    (get_files_effect r).resource_url = r.resource_url := by
  unfold get_files_effect
  cases h : r.resource_url with
  | none => simp [h]
  | some url =>
    simp only [h]
    split <;> simp [h]

theorem locate_is_found (r : Resource) :
    (locate r).is_found = r.lookup_url.isSome := rfl

theorem length_filter_split {α : Type} (p : α → Bool) (l : List α) :
    (l.filter p).length + (l.filter fun a => !p a).length = l.length := by
  induction l with
  | nil => rfl
  | cons x xs ih => by_cases hx : p x <;> simp [List.filter_cons, hx] <;> omega

theorem fetch_resources_ok_spec :
    ∀ (rs found unfound : List Resource) (acts : List Action),
      fetch_resources rs = .ok (found, unfound, acts) →
      found = ((rs.map locate).filter Resource.is_found).map get_files_effect ∧
      unfound = (rs.map locate).filter (fun x => !x.is_found) ∧
      (∀ x, Action.getFiles x ∈ acts → x.is_found = true) ∧
      (∀ r ∈ rs, Action.findLocation (locate r) ∈ acts) ∧
      (∀ a ∈ acts, (∃ x, a = Action.findLocation x) ∨ ∃ x, a = Action.getFiles x)
  | [], found, unfound, acts, h => by
    simp only [fetch_resources, Except.ok.injEq, Prod.mk.injEq] at h
    obtain ⟨h1, h2, h3⟩ := h
    subst h1; subst h2; subst h3
    simp
  | r :: rs, found, unfound, acts, h => by
    unfold fetch_resources at h
    cases hloc : find_location r with
    | error e => rw [hloc] at h; simp at h
    | ok r' =>
      have hr' : r' = locate r := find_location_ok hloc
      subst hr'
      rw [hloc] at h
      by_cases hf : (locate r).is_found = true
      · by_cases hg : (locate r).get_files_ok = true
        · cases hrec : fetch_resources rs with
          | error e => rw [hrec] at h; simp [hf, hg] at h
          | ok out =>
            obtain ⟨f, u, a⟩ := out
            rw [hrec] at h
            simp only [hf, hg, if_true, Except.ok.injEq, Prod.mk.injEq] at h
            obtain ⟨hfound, hunfound, hacts⟩ := h
            subst hfound; subst hunfound; subst hacts
            obtain ⟨ih1, ih2, ih3, ih4, ih5⟩ := fetch_resources_ok_spec rs f u a hrec
            refine ⟨by simp [hf, ih1], by simp [hf, ih2], ?_, ?_, ?_⟩
            · intro x hx
              rcases List.mem_cons.mp hx with hx | hx
              · exact Action.noConfusion hx
              · rcases List.mem_cons.mp hx with hx | hx
                · injection hx with hx'; rw [hx']; exact hf
                · exact ih3 x hx
            · intro x hx
              rcases List.mem_cons.mp hx with rfl | hx
              · exact List.mem_cons_self _ _
              · exact List.mem_cons_of_mem _ (List.mem_cons_of_mem _ (ih4 x hx))
            · intro b hb
              rcases List.mem_cons.mp hb with rfl | hb
              · exact Or.inl ⟨_, rfl⟩
              · rcases List.mem_cons.mp hb with rfl | hb
                · exact Or.inr ⟨_, rfl⟩
                · exact ih5 b hb
        · simp only [hf, if_true] at h
          rw [if_neg hg] at h
          simp at h
      · simp only [Bool.not_eq_true] at hf
        cases hrec : fetch_resources rs with
        | error e => rw [hrec] at h; simp [hf] at h
        | ok out =>
          obtain ⟨f, u, a⟩ := out
          rw [hrec] at h
          simp only [hf, Bool.false_eq_true, if_false, Except.ok.injEq, Prod.mk.injEq] at h
          obtain ⟨hfound, hunfound, hacts⟩ := h
          subst hfound; subst hunfound; subst hacts
          obtain ⟨ih1, ih2, ih3, ih4, ih5⟩ := fetch_resources_ok_spec rs f u a hrec
          refine ⟨by simp [hf, ih1], by simp [hf, ih2], ?_, ?_, ?_⟩
          · intro x hx
            rcases List.mem_cons.mp hx with hx | hx
            · exact Action.noConfusion hx
            · exact ih3 x hx
          · intro x hx
            rcases List.mem_cons.mp hx with rfl | hx
            · exact List.mem_cons_self _ _
            · exact List.mem_cons_of_mem _ (ih4 x hx)
          · intro b hb
            rcases List.mem_cons.mp hb with rfl | hb
            · exact Or.inl ⟨_, rfl⟩
            · exact ih5 b hb

theorem fetch_resources_completes :
    ∀ rs : List Resource,
      (∀ r ∈ rs, r.lookup_url = none → r.kind ≠ ResourceKind.usfm) →
      (∀ r ∈ rs, r.get_files_ok = true) →
      ∃ out, fetch_resources rs = .ok out
  | [], _, _ => ⟨([], [], []), rfl⟩
  | r :: rs, h1, h2 => by
    obtain ⟨⟨f, u, a⟩, hout⟩ :=
      fetch_resources_completes rs
        (fun x hx => h1 x (List.mem_cons_of_mem _ hx))
        (fun x hx => h2 x (List.mem_cons_of_mem _ hx))
    cases hurl : r.lookup_url with
    | none =>
      have hk := h1 r (List.mem_cons_self _ _) hurl
      have hnf : (locate r).is_found = false := by
        simp [locate_is_found, hurl]
      refine ⟨(f, locate r :: u, Action.findLocation (locate r) :: a), ?_⟩
      unfold fetch_resources
      rw [find_location_t_kind hk]
      simp only [hnf, Bool.false_eq_true, if_false, hout]
    | some url =>
      have hf : (locate r).is_found = true := by
        simp [locate_is_found, hurl]
      have hg : (locate r).get_files_ok = true := h2 r (List.mem_cons_self _ _)
      refine ⟨(get_files_effect (locate r) :: f, u,
        Action.findLocation (locate r) :: Action.getFiles (locate r) :: a), ?_⟩
      unfold fetch_resources
      rw [find_location_of_found (by simp [hurl])]
      simp only [hf, if_true, hg, hout]

/-! Helper lemmas about Python string comparison and digit strings. -/

theorem charListLt_nil_right : ∀ xs : List Char, charListLt xs [] = false := by
  intro xs; cases xs <;> rfl

theorem cle_trans : ∀ xs ys zs : List Char,
    charListLt ys xs = false → charListLt zs ys = false → charListLt zs xs = false
  | [], _, zs, _, _ => charListLt_nil_right zs
  | a :: as, [], _, h1, _ => by simp [charListLt] at h1
  | a :: as, b :: bs, [], _, h2 => by simp [charListLt] at h2
  | a :: as, b :: bs, c :: cs, h1, h2 => by
    simp only [charListLt] at h1 h2 ⊢
    by_cases hba : b.toNat < a.toNat
    · rw [if_pos hba] at h1; cases h1
    · rw [if_neg hba] at h1
      by_cases hcb : c.toNat < b.toNat
      · rw [if_pos hcb] at h2; cases h2
      · rw [if_neg hcb] at h2
        by_cases hca : c.toNat < a.toNat
        · exact absurd hca (by omega)
        · rw [if_neg hca]
          by_cases hac : a.toNat < c.toNat
          · rw [if_pos hac]
          · rw [if_neg hac]
            have hab : ¬(a.toNat < b.toNat) := by omega
            have hbc : ¬(b.toNat < c.toNat) := by omega
            rw [if_neg hab] at h1
            rw [if_neg hbc] at h2
            exact cle_trans as bs cs h1 h2

theorem charListLt_asymm : ∀ xs ys : List Char,
    charListLt xs ys = true → charListLt ys xs = false
  | [], [], h => by simp [charListLt] at h
  | [], y :: ys, _ => rfl
  | x :: xs, [], h => by simp [charListLt] at h
  | x :: xs, y :: ys, h => by
    simp only [charListLt] at h ⊢
    by_cases hxy : x.toNat < y.toNat
    · rw [if_neg (by omega), if_pos hxy]
    · rw [if_neg hxy] at h
      by_cases hyx : y.toNat < x.toNat
      · rw [if_pos hyx] at h; cases h
      · rw [if_neg hyx] at h
        rw [if_neg hyx, if_neg hxy]
        exact charListLt_asymm xs ys h

instance : IsTotal String pyStrLe where
  total s t := by
    unfold pyStrLe
    by_cases h : charListLt t.data s.data = true
    · exact Or.inr (charListLt_asymm _ _ h)
    · exact Or.inl (Bool.eq_false_iff.mpr h)

instance : IsTrans String pyStrLe where
  trans s t u h1 h2 := cle_trans s.data t.data u.data h1 h2

theorem natOfDigits_lt_pow :
    ∀ cs : List Char, (∀ c ∈ cs, isAsciiDigit c = true) →
      natOfDigits cs < 10 ^ cs.length
  | [], _ => by simp [natOfDigits]
  | c :: cs, h => by
    have hc := h c (List.mem_cons_self _ _)
    have hcs := natOfDigits_lt_pow cs (fun x hx => h x (List.mem_cons_of_mem _ hx))
    simp only [isAsciiDigit, Bool.and_eq_true, decide_eq_true_eq] at hc
    have hd : c.toNat - 48 ≤ 9 := by omega
    simp only [natOfDigits, List.length_cons]
    calc (c.toNat - 48) * 10 ^ cs.length + natOfDigits cs
        ≤ 9 * 10 ^ cs.length + natOfDigits cs := by
          have := Nat.mul_le_mul_right (10 ^ cs.length) hd
          omega
      _ < 9 * 10 ^ cs.length + 10 ^ cs.length := by omega
      _ = 10 ^ (cs.length + 1) := by rw [pow_succ]; ring

theorem charListLt_of_natOfDigits_lt :
    ∀ xs ys : List Char, xs.length = ys.length →
      (∀ c ∈ xs, isAsciiDigit c = true) → (∀ c ∈ ys, isAsciiDigit c = true) →
      natOfDigits ys < natOfDigits xs → charListLt ys xs = true
  | [], [], _, _, _, h => by simp [natOfDigits] at h
  | [], y :: ys, hlen, _, _, _ => by simp at hlen
  | x :: xs, [], hlen, _, _, _ => by simp at hlen
  | x :: xs, y :: ys, hlen, hx, hy, h => by
    have hlen' : xs.length = ys.length := by simpa using hlen
    have hxd := hx x (List.mem_cons_self _ _)
    have hyd := hy y (List.mem_cons_self _ _)
    simp only [isAsciiDigit, Bool.and_eq_true, decide_eq_true_eq] at hxd hyd
    have hxs_bound := natOfDigits_lt_pow xs (fun c hc => hx c (List.mem_cons_of_mem _ hc))
    simp only [natOfDigits] at h
    rw [hlen'] at h hxs_bound
    simp only [charListLt]
    by_cases hyx : y.toNat < x.toNat
    · rw [if_pos hyx]
    · rw [if_neg hyx]
      by_cases hxy : x.toNat < y.toNat
      · exfalso
        have hstep : (x.toNat - 48) * 10 ^ ys.length + 10 ^ ys.length ≤
            (y.toNat - 48) * 10 ^ ys.length := by
          have hv : x.toNat - 48 + 1 ≤ y.toNat - 48 := by omega
          calc (x.toNat - 48) * 10 ^ ys.length + 10 ^ ys.length
              = (x.toNat - 48 + 1) * 10 ^ ys.length := by ring
            _ ≤ (y.toNat - 48) * 10 ^ ys.length := Nat.mul_le_mul_right _ hv
        omega
      · have hxy' : x.toNat = y.toNat := by omega
        rw [if_neg hxy]
        have htails : natOfDigits ys < natOfDigits xs := by
          rw [hxy'] at h
          omega
        exact charListLt_of_natOfDigits_lt xs ys hlen'
          (fun c hc => hx c (List.mem_cons_of_mem _ hc))
          (fun c hc => hy c (List.mem_cons_of_mem _ hc)) htails

theorem natOfDigits_le_of_pyStrLe (s t : String)
    (hlen : s.data.length = t.data.length)
    (hs : ∀ c ∈ s.data, isAsciiDigit c = true)
    (ht : ∀ c ∈ t.data, isAsciiDigit c = true)
    (hle : pyStrLe s t) : natOfDigits s.data ≤ natOfDigits t.data := by
  by_contra hlt
  push_neg at hlt
  have hgt := charListLt_of_natOfDigits_lt s.data t.data hlen hs ht hlt
  unfold pyStrLe at hle
  rw [hgt] at hle
  cases hle

theorem natOfDigits_dropWhile_zeros :
    ∀ cs : List Char, natOfDigits (cs.dropWhile (· == '0')) = natOfDigits cs
  | [] => rfl
  | c :: cs => by
    by_cases h : (c == '0') = true
    · have hc : c = '0' := by simpa using h
      subst hc
      rw [List.dropWhile_cons, if_pos (by simp)]
      rw [natOfDigits_dropWhile_zeros cs]
      show natOfDigits cs = natOfDigits ('0' :: cs)
      simp [natOfDigits, show ('0').toNat = 48 from rfl]
    · rw [List.dropWhile_cons, if_neg (by simpa using h)]

theorem chapter_entry_value {name : String} {v : Nat}
    (hv : chapter_entry name = some v) : v = natOfDigits name.data := by
  unfold chapter_entry at hv
  dsimp only at hv
  split at hv
  · have hev := Option.some.inj hv
    rw [← hev]
    exact natOfDigits_dropWhile_zeros name.data
  · cases hv

theorem pairwise_le_filterMap_chapter :
    ∀ (l : List String) (w : Nat),
      List.Pairwise pyStrLe l →
      (∀ s ∈ l, s.data.length = w ∧ ∀ c ∈ s.data, isAsciiDigit c = true) →
      List.Pairwise (· ≤ ·) (l.filterMap chapter_entry)
  | [], _, _, _ => by simp
  | x :: xs, w, hp, hall => by
    obtain ⟨hx, hxs⟩ := List.pairwise_cons.mp hp
    have ih := pairwise_le_filterMap_chapter xs w hxs
      (fun s hs => hall s (List.mem_cons_of_mem _ hs))
    rw [List.filterMap_cons]
    cases hex : chapter_entry x with
    | none => exact ih
    | some v =>
      refine List.pairwise_cons.mpr ⟨?_, ih⟩
      intro u hu
      obtain ⟨t, htmem, htv⟩ := List.mem_filterMap.mp hu
      have hvx : v = natOfDigits x.data := chapter_entry_value hex
      have hut : u = natOfDigits t.data := chapter_entry_value htv
      obtain ⟨hxw, hxd⟩ := hall x (List.mem_cons_self _ _)
      obtain ⟨htw, htd⟩ := hall t (List.mem_cons_of_mem _ htmem)
      rw [hvx, hut]
      exact natOfDigits_le_of_pyStrLe x t (by rw [hxw, htw]) hxd htd (hx t htmem)

/-! Theorems settling the claims. -/

/-- C8: the staged pipeline does fail immediately at construction for a
document request naming an unknown resource code, before any location
lookup or fetching — but with the TypeError raised by the 3-argument
resource_factory call at document_generator.py 134 (the factory declares
four required parameters, resource.py 1322-1327), not with the book-table
KeyError: the same TypeError hits a request for a known code, showing the
table is never consulted through this caller.  Invoked with its declared
four arguments, resource_factory does reject the unknown code with the
KeyError from the BOOK_NAMES subscript, which is the rejection the claim
describes. -/
theorem unknown_resource_code_fails_at_construction :
    initialize_resources [reqUnknownCode] = .error PyError.TypeError ∧
    document_generator_run [reqUnknownCode] false = .error PyError.TypeError ∧
    initialize_resources [reqKnownCode] = .error PyError.TypeError ∧
    bookTablesEx.book_names.lookup reqUnknownCode.resource_code = none ∧
    resource_factory bookTablesEx "working" "output" reqUnknownCode envEx =
      .error PyError.KeyError :=
  ⟨rfl, rfl, rfl, rfl, rfl⟩

/-- C7 (counterexample): chapter directories named 10 and 2 — valid numeric
names that are not zero-padded to a common width — are processed in the
order 10, 2, because the source sorts names lexicographically before
stripping zeros; the claimed numeric processing order is false at this
input. -/
theorem chapter_order_lexicographic_counterexample :
    tn_processed_chapters ["10", "2"] = [10, 2] ∧
    ¬ List.Sorted (· ≤ ·) (tn_processed_chapters ["10", "2"]) := by
  refine ⟨by decide, by decide⟩

/-- C7 (amended): chapter directories (and verse files) are processed in
lexicographic order of their names; whenever all names are decimal digit
strings zero-padded to one common width, this coincides with numeric
order, so the processed chapter numbers come out sorted ascending. -/
theorem chapter_order_numeric_when_padded (w : Nat) (listing : List String)
    (h : ∀ name ∈ listing, name.data.length = w ∧ ∀ c ∈ name.data, isAsciiDigit c = true) :
    List.Sorted (· ≤ ·) (tn_processed_chapters listing) := by
  unfold tn_processed_chapters
  have hs : List.Pairwise pyStrLe (pysorted listing) :=
    List.sorted_insertionSort pyStrLe listing
  exact pairwise_le_filterMap_chapter (pysorted listing) w hs
    (fun s hsm => h s ((List.mem_insertionSort pyStrLe).mp hsm))

/-- C7 (witness): the amended statement evaluated on width-2 zero-padded
chapter names. -/
theorem chapter_order_numeric_when_padded_witness :
    List.Sorted (· ≤ ·) (tn_processed_chapters ["01", "02", "10"]) :=
  chapter_order_numeric_when_padded 2 ["01", "02", "10"] (by decide)

/-- C1 (counterexample): a document request containing a USFM scripture
resource whose catalog lookup yields no URL does not complete:
USFMResource.find_location's icontract postcondition raises a
ViolationError and the run aborts, so the claim's universal statement is
false at this input. -/
theorem usfm_notfound_aborts_run :
    usfmUnfound.lookup_url = none ∧
    fetch_resources [usfmUnfound] = .error PyError.ViolationError ∧
    run [usfmUnfound] false = .error PyError.ViolationError :=
  ⟨rfl, rfl, rfl⟩

/-- C1 (amended): for every document request in which each resource whose
location lookup yields no URL is of a TResource kind (tn, tq, tw, ta) and
the found resources' downloads succeed, the fetch phase completes without
aborting: every unfound resource is recorded in unfound_resources in
request order and is never fetched.  The run as a whole completes only
when no resource was found — document_generator.py 198 calls the
nonexistent resource.initialize_assets(), raising an AttributeError at the
first found resource — and in that all-unfound case the completed run's
assembled content is the concatenation over the (empty) list of found
resources, omitting every unfound resource. -/
theorem notfound_tolerance_t_kinds (rs : List Resource)
    (h1 : ∀ r ∈ rs, r.lookup_url = none → r.kind ≠ ResourceKind.usfm)
    (h2 : ∀ r ∈ rs, r.get_files_ok = true) :
    ∃ found unfound acts,
      fetch_resources rs = .ok (found, unfound, acts) ∧
      unfound = (rs.map locate).filter (fun x => !x.is_found) ∧
      (∀ u ∈ unfound, Action.getFiles u ∉ acts) ∧
      (found = [] → ∀ pdfExists, ∃ tr, run rs pdfExists = .ok tr) ∧
      (found = [] → pipeline_content rs =
        .ok (assemble_content_by_book
          (((rs.map locate).filter Resource.is_found).map get_files_effect))) ∧
      (found ≠ [] → run rs false = .error PyError.AttributeError) := by
  obtain ⟨⟨f, u, a⟩, hout⟩ := fetch_resources_completes rs h1 h2
  obtain ⟨hf, hu, hgf, _, _⟩ := fetch_resources_ok_spec rs f u a hout
  refine ⟨f, u, a, hout, hu, ?_, ?_, ?_, ?_⟩
  · intro x hx hmem
    have hxf : x.is_found = false := by
      rw [hu] at hx
      have := (List.mem_filter.mp hx).2
      simpa using this
    have := hgf x hmem
    rw [hxf] at this
    cases this
  · intro hempty pdfExists
    subst hempty
    exact ⟨_, by unfold run; rw [hout]; rfl⟩
  · intro hempty
    subst hempty
    unfold pipeline_content
    rw [hout]
    exact congrArg (fun l => Except.ok (assemble_content_by_book l)) hf
  · intro hne
    obtain ⟨x, xs, hcons⟩ := List.exists_cons_of_ne_nil hne
    subst hcons
    unfold run
    rw [hout]
    rfl

/-- C1 (witness): the amended statement evaluated on a request containing a
single unfound translation-notes resource, the case in which the run
completes. -/
theorem notfound_tolerance_t_kinds_witness :
    ∃ found unfound acts,
      fetch_resources [tnUnfound] = .ok (found, unfound, acts) ∧
      unfound = (([tnUnfound]).map locate).filter (fun x => !x.is_found) ∧
      (∀ u ∈ unfound, Action.getFiles u ∉ acts) ∧
      (found = [] → ∀ pdfExists, ∃ tr, run [tnUnfound] pdfExists = .ok tr) ∧
      (found = [] → pipeline_content [tnUnfound] =
        .ok (assemble_content_by_book
          (((([tnUnfound]).map locate).filter Resource.is_found).map
            get_files_effect))) ∧
      (found ≠ [] → run [tnUnfound] false = .error PyError.AttributeError) :=
  notfound_tolerance_t_kinds [tnUnfound] (by decide) (by decide)

/-- C3 (counterexample): with the keyed PDF artifact already present, the
run still performs the fetch work — run() executes _fetch_resources first,
which locates and fetches the resource — and then aborts with the
AttributeError from resource.initialize_assets() instead of skipping
everything and returning the artifact path, so the claim is false at this
input. -/
theorem existing_pdf_run_still_fetches :
    fetch_resources [tnFound] =
      .ok ([get_files_effect (locate tnFound)], [],
           [Action.findLocation (locate tnFound), Action.getFiles (locate tnFound)]) ∧
    Action.getFiles (locate tnFound) ∈
      [Action.findLocation (locate tnFound), Action.getFiles (locate tnFound)] ∧
    run [tnFound] true = .error PyError.AttributeError :=
  ⟨rfl, by simp, rfl⟩

/-- C3 (amended): the artifact-exists check guards only _generate_pdf: the
run performs the fetch phase for every requested resource regardless.
When no resource was found, a run with the artifact present completes and
performs no assembly or HTML-to-PDF conversion action (generation is
skipped, and the artifact path derived from the unchanged request key is
the same); when some resource was found, the run aborts with the
AttributeError raised by resource.initialize_assets() before the artifact
check is even reached. -/
theorem existing_pdf_skips_generation_only (rs found unfound : List Resource)
    (acts : List Action) (h : fetch_resources rs = .ok (found, unfound, acts)) :
    (∀ r ∈ rs, Action.findLocation (locate r) ∈ acts) ∧
    (found = [] → run rs true = .ok acts ∧
      Action.assembleContent ∉ acts ∧ Action.convertHtml2Pdf ∉ acts) ∧
    (found ≠ [] → run rs true = .error PyError.AttributeError) := by
  obtain ⟨hf, hu, hgf, hloc, hshape⟩ := fetch_resources_ok_spec rs found unfound acts h
  refine ⟨hloc, ?_, ?_⟩
  · intro hempty
    subst hempty
    refine ⟨?_, ?_, ?_⟩
    · unfold run
      rw [h]
      show Except.ok (acts ++ [] ++ generate_pdf_actions true) = Except.ok acts
      simp [generate_pdf_actions]
    · intro hmem
      rcases hshape _ hmem with ⟨x, hx⟩ | ⟨x, hx⟩ <;> cases hx
    · intro hmem
      rcases hshape _ hmem with ⟨x, hx⟩ | ⟨x, hx⟩ <;> cases hx
  · intro hne
    obtain ⟨x, xs, hcons⟩ := List.exists_cons_of_ne_nil hne
    subst hcons
    unfold run
    rw [h]
    rfl

/-- C3 (witness): the amended statement evaluated on a request whose single
resource is unfound, the case in which the run completes with generation
skipped. -/
theorem existing_pdf_skips_generation_only_witness :
    (∀ r ∈ [tnUnfound], Action.findLocation (locate r) ∈
      [Action.findLocation (locate tnUnfound)]) ∧
    (([] : List Resource) = [] → run [tnUnfound] true =
        .ok [Action.findLocation (locate tnUnfound)] ∧
      Action.assembleContent ∉ [Action.findLocation (locate tnUnfound)] ∧
      Action.convertHtml2Pdf ∉ [Action.findLocation (locate tnUnfound)]) ∧
    (([] : List Resource) ≠ [] → run [tnUnfound] true = .error PyError.AttributeError) :=
  existing_pdf_skips_generation_only [tnUnfound] [] [locate tnUnfound]
    [Action.findLocation (locate tnUnfound)] rfl

/-- C9: when the fetch phase completes, found_resources holds exactly the
located resources whose resolved URL is present (after their provisioning
effect) and unfound_resources exactly those whose resolved URL is absent,
both in request order, and together they account for every requested
resource. -/
theorem fetch_phase_partitions_resources (rs found unfound : List Resource)
    (acts : List Action) (h : fetch_resources rs = .ok (found, unfound, acts)) :
    found = ((rs.map locate).filter Resource.is_found).map get_files_effect ∧
    unfound = (rs.map locate).filter (fun x => !x.is_found) ∧
    found.length + unfound.length = rs.length ∧
    (∀ r ∈ found, r.resource_url.isSome = true) ∧
    (∀ r ∈ unfound, r.resource_url = none) := by
  obtain ⟨hf, hu, _, _, _⟩ := fetch_resources_ok_spec rs found unfound acts h
  refine ⟨hf, hu, ?_, ?_, ?_⟩
  · rw [hf, hu, List.length_map]
    have := length_filter_split (Resource.is_found) (rs.map locate)
    simpa [List.length_map] using this
  · intro r hr
    rw [hf] at hr
    obtain ⟨x, hx, hxr⟩ := List.mem_map.mp hr
    have hxf : x.is_found = true := (List.mem_filter.mp hx).2
    rw [← hxr, get_files_effect_url]
    exact hxf
  · intro r hr
    rw [hu] at hr
    have hxf := (List.mem_filter.mp hr).2
    simp only [Bool.not_eq_true'] at hxf
    exact Option.not_isSome_iff_eq_none.mp (by simp [Resource.is_found] at hxf ⊢; exact hxf)

/-- C2 (counterexample): on parsed USFM HTML with zero chapter-heading
markers, splitting into verses raises an IndexError (the chapter_breaks[0]
subscript on an empty result set) instead of yielding empty content, so
the claim is false at this input. -/
theorem no_chapter_markers_raises_index_error :
    initialize_verses_html usfmNoChapters = .error PyError.IndexError := rfl

/-- C2 (amended): for every USFM resource whose parsed HTML content is
non-empty but contains zero h2.c-num chapter-heading markers, splitting
into verses raises an IndexError; the resource does not contribute empty
content. -/
theorem usfm_zero_chapter_markers_error (doc : ParsedUsfmHtml)
    (h1 : doc.html ≠ "") (h2 : doc.chapter_breaks = []) :
    initialize_verses_html doc = .error PyError.IndexError := by
  unfold initialize_verses_html
  rw [if_neg h1, h2]

/-- C2 (witness): the amended statement evaluated at a second concrete
chapterless document. -/
theorem usfm_zero_chapter_markers_error_witness :
    initialize_verses_html usfmNoChapters2 = .error PyError.IndexError :=
  usfm_zero_chapter_markers_error usfmNoChapters2 (by decide) rfl

/-- C4: USFM asset discovery returns exactly the glob-found .usfm files
whose path contains the resource code as a case-insensitive substring, in
traversal order, and consults the .txt glob only when the .usfm glob
yielded no files at all. -/
theorem usfm_discovery_filters_by_code (code : String)
    (usfm_files txt_files : List String) :
    (usfm_files ≠ [] →
      usfm_initialize_from_assets code usfm_files txt_files =
        usfm_files.filter (fun f => substrCI code f) ∧
      ∀ f, f ∈ usfm_initialize_from_assets code usfm_files txt_files ↔
        f ∈ usfm_files ∧ substrCI code f = true) ∧
    (usfm_files = [] → txt_files ≠ [] →
      usfm_initialize_from_assets code usfm_files txt_files =
        txt_files.filter (fun f => substrCI code f)) ∧
    (usfm_files = [] → txt_files = [] →
      usfm_initialize_from_assets code usfm_files txt_files = []) := by
  unfold usfm_initialize_from_assets
  refine ⟨?_, ?_, ?_⟩
  · intro h
    rw [if_neg (by simpa using h)]
    exact ⟨rfl, fun f => by simp [List.mem_filter]⟩
  · intro h1 h2
    rw [if_pos (by simp [h1]), if_neg (by simpa using h2)]
  · intro h1 h2
    rw [if_pos (by simp [h1]), if_pos (by simp [h2])]

/-- C4 (witness): discovery evaluated on a directory holding a matching and
a non-matching usfm file plus a txt file. -/
theorem usfm_discovery_filters_by_code_witness :
    usfm_initialize_from_assets "gen" ["repo/01-GEN.usfm", "repo/02-EXO.usfm"] ["t.txt"]
      = ["repo/01-GEN.usfm"] := by
  have h := (usfm_discovery_filters_by_code "gen"
    ["repo/01-GEN.usfm", "repo/02-EXO.usfm"] ["t.txt"]).1 (by decide)
  rw [h.1]
  decide

/-- C5 (counterexample): provisioning a git-kind resource whose clone
process exits with status 1 succeeds rather than failing — the exit status
returned by subprocess.call is never inspected and the clone is treated as
successful — so the claim is false at this input. -/
theorem git_clone_nonzero_exit_succeeds :
    cloneFailedEnv.clone_exit_code = 1 ∧
    acquire_resource gitResource cloneFailedEnv =
      .ok { gitResource with resource_dir := "working/en_ulb/en_ulb" } :=
  ⟨rfl, rfl⟩

/-- C5 (amended): provisioning fails only when the download or the archive
extraction raises — a non-git download failure propagates and a zip
extraction failure propagates — while for a git-kind source provisioning
succeeds for every clone exit status, a failed clone being silently
ignored. -/
theorem provisioning_failure_modes (r : Resource) (env : ProvisionEnv)
    (ht : r.resource_type ≠ "") (hd : r.resource_dir ≠ "")
    (hu : r.resource_url.isSome = true) :
    (r.resource_source = GIT → ∃ r', acquire_resource r env = .ok r') ∧
    (r.resource_source ≠ GIT → env.download_ok = false →
      acquire_resource r env = .error PyError.DownloadError) ∧
    (r.resource_source = ZIP → env.download_ok = true → env.unzip_ok = false →
      acquire_resource r env = .error PyError.ExtractError) := by
  obtain ⟨url, hurl⟩ := Option.isSome_iff_exists.mp hu
  unfold acquire_resource
  rw [if_neg (by simp [ht, hd])]
  simp only [hurl]
  refine ⟨?_, ?_, ?_⟩
  · intro hgit
    rw [if_pos hgit]
    exact ⟨_, rfl⟩
  · intro hgit hdl
    rw [if_neg hgit]
    simp [hdl]
  · intro hzip hdl hzf
    rw [if_neg (by rw [hzip]; decide)]
    simp [hdl, hzip, hzf]

/-- C5 (witness): the amended statement evaluated on a zip resource whose
download raises. -/
theorem provisioning_failure_modes_witness :
    acquire_resource zipResource noDownloadEnv = .error PyError.DownloadError :=
  (provisioning_failure_modes zipResource noDownloadEnv (by decide) (by decide)
    (by decide)).2.1 (by decide) rfl

/-- C6: after provisioning, a git-kind resource's resource_dir is redirected
to the nested clone-target path — the original resource_dir joined with the
final path component of the resource URL — while for non-git (zip or flat)
sources a completed provisioning leaves resource_dir unchanged. -/
theorem git_provisioning_redirects_resource_dir (r : Resource) (env : ProvisionEnv)
    (url : String) (h : r.resource_url = some url)
    (ht : r.resource_type ≠ "") (hd : r.resource_dir ≠ "") :
    (r.resource_source = GIT →
      acquire_resource r env =
        .ok { r with resource_dir := pathJoin r.resource_dir (rpartition_tail url) }) ∧
    (r.resource_source ≠ GIT →
      ∀ r', acquire_resource r env = .ok r' → r'.resource_dir = r.resource_dir) := by
  unfold acquire_resource
  rw [if_neg (by simp [ht, hd])]
  simp only [h]
  constructor
  · intro hgit
    rw [if_pos hgit]
  · intro hgit r' h'
    rw [if_neg hgit] at h'
    by_cases hdl : env.download_ok = true
    · by_cases hzip : r.resource_source = ZIP
      · by_cases hz : env.unzip_ok = true
        · simp [hdl, hzip, hz] at h'
          rw [← h']
        · simp [hdl, hzip, hz] at h'
      · simp [hdl, hzip] at h'
        rw [← h']
    · simp [hdl] at h'

/-- C6 (witness): the redirect statement evaluated on a git resource in a
clean environment. -/
theorem git_provisioning_redirects_resource_dir_witness :
    acquire_resource gitResource cleanEnv =
      .ok { gitResource with
            resource_dir := pathJoin gitResource.resource_dir (rpartition_tail "https://git.door43.org/wa/en_ulb") } :=
  (git_provisioning_redirects_resource_dir gitResource cleanEnv
    "https://git.door43.org/wa/en_ulb" rfl (by decide) (by decide)).1 rfl

/-- C10: evaluating get_tw_refs at the empty dictionary raises a KeyError —
the truthiness guard short-circuits for an empty dict and the following
tw_refs_by_verse[book] subscript raises — contradicting the function's
documented contract of returning an empty list when there is no match. -/
theorem get_tw_refs_empty_dict_raises :
    get_tw_refs [] "gen" "1" "1" = .error PyError.KeyError := rfl

/-- C9 (witness): the partition statement evaluated on a concrete request
with one unfound and one found resource. -/
theorem fetch_phase_partitions_resources_witness :
    [get_files_effect (locate tnFound)] =
      ((([tnUnfound, tnFound]).map locate).filter Resource.is_found).map get_files_effect ∧
    [locate tnUnfound] =
      (([tnUnfound, tnFound]).map locate).filter (fun x => !x.is_found) ∧
    ([get_files_effect (locate tnFound)]).length + ([locate tnUnfound]).length =
      ([tnUnfound, tnFound]).length ∧
    (∀ r ∈ [get_files_effect (locate tnFound)], r.resource_url.isSome = true) ∧
    (∀ r ∈ [locate tnUnfound], r.resource_url = none) :=
  fetch_phase_partitions_resources [tnUnfound, tnFound]
    [get_files_effect (locate tnFound)] [locate tnUnfound]
    [Action.findLocation (locate tnUnfound), Action.findLocation (locate tnFound),
     Action.getFiles (locate tnFound)] rfl

end DOC
